import Mathlib

set_option linter.unusedVariables false

/-!
Verification development for the ComfyUI-Lightx2vWrapper node adapters
(`nodes.py`).  The Python node classes are shallowly embedded: the
filesystem is an abstract predicate `String → Bool`, Python exceptions
become an `Err` inductive returned through `Except`, combo-box widget
domains become inductives, and tensors become index functions into `ℚ`.
-/

/-- The kinds of Python exception the adapter code can raise. -/
inductive Err
  | assertionError
  | notImplementedError
  | fileNotFoundError
  | valueError
  | typeError
  | keyError
  | attributeError
deriving DecidableEq

deriving instance DecidableEq for Except

/-- Model of `pathlib` `/` joining: `Path(a) / b`. -/
def pathJoin (a b : String) : String := a ++ "/" ++ b

/-- Split a character list into `/`-separated components. -/
def splitSlash : List Char → List (List Char)
  | [] => [[]]
  | c :: rest =>
    match splitSlash rest with
    | [] => [[]]
    | g :: gs => if c = '/' then [] :: g :: gs else (c :: g) :: gs

/-- Re-join components with `/`. -/
def joinSlash : List (List Char) → List Char
  | [] => []
  | [g] => g
  | g :: gs => g ++ '/' :: joinSlash gs

/-- Model of `Path(s).parent`: drop the last `/`-separated component; a
path with no separator has parent `"."` as in `pathlib`. -/
def pyParent (s : String) : String :=
  match (splitSlash s.data).dropLast with
  | [] => "."
  | parts => ⟨joinSlash parts⟩

/-- Model of Python `str.strip()` (leading/trailing whitespace removal). -/
def pyStrip (s : String) : String :=
  ⟨((s.data.dropWhile Char.isWhitespace).reverse.dropWhile Char.isWhitespace).reverse⟩

/-- Truthiness of an optional Python string (`None` and `""` are falsy). -/
def pyTruthyStr : Option String → Bool
  | some s => !(s == "")
  | none => false

/-- `Lightx2vWanVideoModelDir.process`: assert the directory exists, then
return the string unchanged. -/
def modelDir_process (fs : String → Bool) (model_dir : String) : Except Err String :=
  if fs model_dir then .ok model_dir else .error .assertionError

/-- The `precision` combo-box domain of the T5/VAE/model loaders. -/
inductive Precision
  | bf16
  | fp16
  | fp32
deriving DecidableEq

/-- The torch dtypes the loaders map precisions to. -/
inductive Dtype
  | bfloat16
  | float16
  | float32
deriving DecidableEq

/-- The `dtype_map` dictionary shared by the loaders. -/
def dtype_map : Precision → Dtype
  | .bf16 => .bfloat16
  | .fp16 => .float16
  | .fp32 => .float32

/-- The `precision` combo-box domain of the CLIP vision loader
(only fp16/fp32). -/
inductive ClipPrecision
  | fp16
  | fp32
deriving DecidableEq

/-- The CLIP loader's `dtype_map`. -/
def clip_dtype_map : ClipPrecision → Dtype
  | .fp16 => .float16
  | .fp32 => .float32

/-- The `device` combo-box domain. -/
inductive DeviceChoice
  | cuda
  | cpu
deriving DecidableEq

/-- The `model_type` combo-box domain of the model loader. -/
inductive ModelType
  | t2v
  | i2v
deriving DecidableEq

/-- The `attention_type` combo-box domain of the model loader. -/
inductive AttnType
  | sdpa
  | flash_attn2
  | flash_attn3
deriving DecidableEq

/-- The dictionary built by `WanVideoTeaCache.process`.  The
`cache_device` field records which branch of the device resolution was
taken (`comfy_mm.get_torch_device()` vs `comfy_mm.unet_offload_device()`,
both external). -/
structure TeacacheArgs where
  rel_l1_thresh : ℚ
  start_step : Int
  end_step : Int
  cache_device : String
  coefficients : String
  mode : String
deriving DecidableEq

/-- `WanVideoTeaCache.process`: package the widget values into the
`teacache_args` dictionary. -/
def teaCache_process (rel_l1_thresh : ℚ) (start_step end_step : Int)
    (cache_device coefficients mode : String) : TeacacheArgs :=
  { rel_l1_thresh := rel_l1_thresh
    start_step := start_step
    end_step := end_step
    cache_device := if cache_device == "main_device" then "torch_device" else "offload_device"
    coefficients := coefficients
    mode := mode }

/-- A Python formal parameter: its name and whether it has a default. -/
structure PyParam where
  name : String
  hasDefault : Bool
deriving DecidableEq

/-- The required input names declared by `WanVideoTeaCache.INPUT_TYPES`,
in declaration order. -/
def teaCache_required_inputs : List String :=
  ["rel_l1_thresh", "start_percent", "end_percent", "cache_device", "coefficients"]

/-- The optional input names declared by `WanVideoTeaCache.INPUT_TYPES`. -/
def teaCache_optional_inputs : List String := ["mode"]

/-- The formal parameters of `WanVideoTeaCache.process` (after `self`);
only `mode` has a default. -/
def teaCache_process_params : List PyParam :=
  [⟨"rel_l1_thresh", false⟩, ⟨"start_step", false⟩, ⟨"end_step", false⟩,
   ⟨"cache_device", false⟩, ⟨"coefficients", false⟩, ⟨"mode", true⟩]

/-- Python keyword-call binding: a call with keyword arguments `kwargs`
binds iff every keyword names a formal parameter and every parameter
without a default is supplied. -/
def kwargsCallOk (params : List PyParam) (kwargs : List String) : Bool :=
  kwargs.all (fun k => params.any (fun p => p.name == k)) &&
  params.all (fun p => p.hasDefault || kwargs.any (fun k => k == p.name))

/-- Python keyword-call semantics: a binding failure raises `TypeError`. -/
def kwargsCall (params : List PyParam) (kwargs : List String) : Except Err Unit :=
  if kwargsCallOk params kwargs then .ok () else .error .typeError

/-- Paths assembled by `Lightx2vWanVideoT5EncoderLoader.load_t5_encoder`. -/
structure T5Paths where
  checkpoint_path : String
  tokenizer_path : String
deriving DecidableEq

/-- The `else` branch of `load_t5_encoder` (no usable `model_dir`):
assert the checkpoint exists, then assert the tokenizer directory
(`model_name.parent / "google" / "umt5-xxl"`) exists. -/
def t5_else_branch (fs : String → Bool) (model_name : String) : Except Err T5Paths :=
  if fs model_name then
    if fs (pathJoin (pathJoin (pyParent model_name) "google") "umt5-xxl") then
      .ok ⟨model_name, pathJoin (pathJoin (pyParent model_name) "google") "umt5-xxl"⟩
    else .error .assertionError
  else .error .assertionError

/-- `Lightx2vWanVideoT5EncoderLoader.load_t5_encoder`: when `model_dir`
is truthy the checkpoint and tokenizer paths are assembled under it with
no existence checks; otherwise both paths are asserted to exist.
`precision` and `device` only select external dtype/device objects. -/
def load_t5_encoder (fs : String → Bool) (model_name : String)
    (precision : Precision) (device : DeviceChoice)
    (model_dir : Option String) : Except Err T5Paths :=
  match model_dir with
  | some d =>
    if d == "" then t5_else_branch fs model_name
    else .ok ⟨pathJoin d model_name, pathJoin (pathJoin d "google") "umt5-xxl"⟩
  | none => t5_else_branch fs model_name

/-- The joined VAE checkpoint path: `model_dir / model_name` when
`model_dir` is truthy, else `model_name` itself. -/
def vae_model_path (model_name : String) (model_dir : Option String) : String :=
  match model_dir with
  | some d => if d == "" then model_name else pathJoin d model_name
  | none => model_name

/-- The existence assertion of `load_vae`. -/
def vae_check (fs : String → Bool) (name : String) : Except Err String :=
  if fs name then .ok name else .error .assertionError

/-- `Lightx2vWanVideoVaeLoader.load_vae`: join under `model_dir` when
truthy, then assert the checkpoint path exists; returns the path handed
to the external `WanVAE` constructor. -/
def load_vae (fs : String → Bool) (model_name : String)
    (precision : Precision) (device : DeviceChoice) (parallel : Bool)
    (model_dir : Option String) : Except Err String :=
  vae_check fs (vae_model_path model_name model_dir)

/-- `Lightx2vWanVideoClipVisionEncoderLoader.load_clip_vision_encoder`:
when `model_dir` is truthy both paths are joined under it (becoming
`Path` objects) and asserted to exist; when `model_dir` is falsy
`model_name` remains a plain `str`, so the `model_name.exists()` call in
the assertion raises `AttributeError`. -/
def load_clip_vision_encoder (fs : String → Bool)
    (model_name tokenizer_path : String) (precision : ClipPrecision)
    (device : DeviceChoice) (model_dir : Option String) :
    Except Err (String × String) :=
  match model_dir with
  | some d =>
    if d == "" then .error .attributeError
    else
      let mn := pathJoin d model_name
      let tp := pathJoin d tokenizer_path
      if fs mn then
        if fs tp then .ok (mn, tp) else .error .assertionError
      else .error .assertionError
  | none => .error .attributeError

/-- The configuration dictionary literal built by
`Lightx2vWanVideoModelLoader.load_model` (lines 733-756).  Entries whose
values are fixed external objects (`parallel_attn_type`, `device`) are
kept as the branch tags chosen by the adapter. -/
structure Config where
  do_mm_calib : Bool
  cpu_offload : Bool
  parallel_vae : Bool
  max_area : Bool
  vae_stride : Nat × Nat × Nat
  patch_size : Nat × Nat × Nat
  feature_caching : String
  teacache_thresh : ℚ
  use_ret_steps : Bool
  use_bfloat16 : Bool
  mm_type : String
  weight_auto_quant : Bool
  model_path : String
  task : ModelType
  device : DeviceChoice
  attention_type : AttnType
  lora_path : Option String
  strength_model : ℚ
deriving DecidableEq

/-- Construction of the config dictionary from the widget values, as in
the dict literal of `load_model`; `model_path` is the (already joined)
model path. -/
def buildConfig (model_type : ModelType) (precision : Precision)
    (device : DeviceChoice) (attention_type : AttnType)
    (cpu_offload : Bool) (mm_type : String)
    (teacache_args : Option TeacacheArgs) (lora_path : Option String)
    (lora_strength : ℚ) (model_path : String) : Config :=
  { do_mm_calib := false
    cpu_offload := cpu_offload
    parallel_vae := false
    max_area := false
    vae_stride := (4, 8, 8)
    patch_size := (1, 2, 2)
    feature_caching := if teacache_args.isSome then "Tea" else "NoCaching"
    teacache_thresh := match teacache_args with
      | some t => t.rel_l1_thresh
      | none => 26/100
    use_ret_steps := false
    use_bfloat16 := dtype_map precision == Dtype.bfloat16
    mm_type := mm_type
    weight_auto_quant := if mm_type == "Default" then false else true
    model_path := model_path
    task := model_type
    device := device
    attention_type := attention_type
    lora_path := match lora_path with
      | some s => if s ≠ "" ∧ pyStrip s ≠ "" then some s else none
      | none => none
    strength_model := lora_strength }

/-- The branch of `load_model` reached with a joined `Path` object
`p = Path(model_dir) / model_name`: assert the path is truthy and
exists, locate `config.json` next to it (or inside it when it is a
directory), and raise `FileNotFoundError` when that file is missing.
The merge `config.update(**config_json)` and the external `WanModel` /
LoRA loading are outside this embedding; the returned value is the
config dictionary as built from the widgets.  First, the location of
`config.json`: inside the model path when it is a directory, else next
to it. -/
def config_json_path (isDir : String → Bool) (p : String) : String :=
  if isDir p then pathJoin p "config.json"
  else pathJoin (pyParent p) "config.json"

/-- See `load_model`: the path branch proper. -/
def load_model_path_branch (fs isDir : String → Bool) (p : String)
    (model_type : ModelType) (precision : Precision)
    (device : DeviceChoice) (attention_type : AttnType)
    (cpu_offload : Bool) (mm_type : String)
    (teacache_args : Option TeacacheArgs) (lora_path : Option String)
    (lora_strength : ℚ) : Except Err Config :=
  if p == "" then .error .assertionError
  else if fs p then
    if fs (config_json_path isDir p) then
      .ok (buildConfig model_type precision device attention_type
        cpu_offload mm_type teacache_args lora_path lora_strength p)
    else .error .fileNotFoundError
  else .error .assertionError

/-- `Lightx2vWanVideoModelLoader.load_model`.  When `model_dir` is
truthy, `model_name` becomes `Path(model_dir) / model_name` and the path
branch runs.  When `model_dir` is falsy, `model_name` stays a plain
`str`: `assert model_name` fails on the empty string, and otherwise the
`model_name.exists()` call raises `AttributeError`. -/
def load_model (fs isDir : String → Bool) (model_name : String)
    (model_type : ModelType) (precision : Precision)
    (device : DeviceChoice) (attention_type : AttnType)
    (mm_type : String) (lora_path : Option String) (lora_strength : ℚ)
    (cpu_offload : Bool) (teacache_args : Option TeacacheArgs)
    (model_dir : Option String) : Except Err Config :=
  if pyTruthyStr model_dir then
    match model_dir with
    | some d =>
      load_model_path_branch fs isDir (pathJoin d model_name) model_type
        precision device attention_type cpu_offload mm_type teacache_args
        lora_path lora_strength
    | none => .error .attributeError
  else if model_name == "" then .error .assertionError
  else .error .attributeError

/-- The `config` dictionary carried inside `image_embeddings`, as built
by `Lightx2vWanVideoImageEncoder.encode_image` (which also sets
`cpu_offload`, `lat_h`, `lat_w`) or `Lightx2vWanVideoEmptyEmbeds.process`
(which sets none of those three). -/
structure ImageConfig where
  target_height : Nat
  target_width : Nat
  target_video_length : Nat
  vae_stride : Nat × Nat × Nat
  patch_size : Nat × Nat × Nat
  cpu_offload : Option Bool
  lat_h : Option Nat
  lat_w : Option Nat
deriving DecidableEq

/-- The sampler's view of the model `config` dictionary: the keys read
or written by `Lightx2vWanVideoSampler.sample`.  Keys the dictionary may
lack before the call (`lat_h`, `lat_w`, `num_channels_latents`,
`infer_steps`, ..., `target_shape`) are `Option`-valued. -/
structure SamplerConfig where
  task : ModelType
  feature_caching : String
  cpu_offload : Bool
  target_height : Nat
  target_width : Nat
  target_video_length : Nat
  vae_stride : Nat × Nat × Nat
  patch_size : Nat × Nat × Nat
  lat_h : Option Nat
  lat_w : Option Nat
  num_channels_latents : Option Nat
  infer_steps : Option Nat
  sample_shift : Option ℚ
  sample_guide_scale : Option ℚ
  seed : Option Int
  enable_cfg : Option Bool
  offload_granularity : Option String
  target_shape : Option (Nat × Nat × Nat × Nat)
deriving DecidableEq

/-- `model_config.update(image_config)`: every key present in the image
config overwrites the model config's entry; absent optional keys leave
the model config's entry alone. -/
def dict_update (cfg : SamplerConfig) (img : ImageConfig) : SamplerConfig :=
  { cfg with
    target_height := img.target_height
    target_width := img.target_width
    target_video_length := img.target_video_length
    vae_stride := img.vae_stride
    patch_size := img.patch_size
    cpu_offload := match img.cpu_offload with
      | some b => b
      | none => cfg.cpu_offload
    lat_h := match img.lat_h with
      | some v => some v
      | none => cfg.lat_h
    lat_w := match img.lat_w with
      | some v => some v
      | none => cfg.lat_w }

/-- Absolute value on exact rationals, kept kernel-computable. -/
def ratAbs (x : ℚ) : ℚ := if x < 0 then -x else x

/-- Maximum on exact rationals, kept kernel-computable. -/
def ratMax (x y : ℚ) : ℚ := if x ≤ y then y else x

/-- Python `math.isclose` with its default tolerances
(`rel_tol = 1e-9`, `abs_tol = 0`). -/
def pyIsClose (x y : ℚ) : Bool :=
  ratAbs (x - y) ≤ (1/1000000000) * ratMax (ratAbs x) (ratAbs y)

/-- The in-place config mutation performed by `sample` before scheduler
construction: merge the image config, then assign `infer_steps`,
`sample_shift`, `sample_guide_scale`, `seed`, `enable_cfg` and
`offload_granularity`. -/
def sample_set_params (cfg : SamplerConfig) (img : ImageConfig)
    (steps : Nat) (shift cfg_scale : ℚ) (seed : Int) : SamplerConfig :=
  { dict_update cfg img with
    infer_steps := some steps
    sample_shift := some shift
    sample_guide_scale := some cfg_scale
    seed := some seed
    enable_cfg := some (if pyIsClose cfg_scale 1 then false else true)
    offload_granularity := some "block" }

/-- The `set_target_shape` block of `sample`: reads
`num_channels_latents` with default 16; for `i2v` it reads `lat_h` and
`lat_w` (an `AttributeError` on the `EasyDict` when absent), for `t2v`
it derives the spatial extent from `target_height`/`target_width`. -/
def sample_set_target_shape (cfg : SamplerConfig) : Except Err SamplerConfig :=
  if cfg.task = ModelType.i2v then
    match cfg.lat_h, cfg.lat_w with
    | some lh, some lw =>
      .ok { cfg with target_shape := some (cfg.num_channels_latents.getD 16,
        (cfg.target_video_length - 1) / cfg.vae_stride.1 + 1, lh, lw) }
    | _, _ => .error .attributeError
  else
    .ok { cfg with target_shape := some (16,
      (cfg.target_video_length - 1) / 4 + 1,
      cfg.target_height / cfg.vae_stride.2.1,
      cfg.target_width / cfg.vae_stride.2.2) }

/-- The whole config mutation performed by a call to `sample` up to the
scheduler-construction point. -/
def sample_update_config (cfg : SamplerConfig) (img : ImageConfig)
    (steps : Nat) (shift cfg_scale : ℚ) (seed : Int) :
    Except Err SamplerConfig :=
  sample_set_target_shape (sample_set_params cfg img steps shift cfg_scale seed)

/-- Model of the torch `clamp(x, 0, 1)` on exact scalars. -/
def pyClamp (x lo hi : ℚ) : ℚ := min (max x lo) hi

/-- `Lightx2vWanVideoVaeDecoder.decode_latent` on the decoded tensor of
shape `[1, C, T, H, W]`: shift `[-1, 1]` to `[0, 1]`, `squeeze(0)`,
`permute(1, 2, 3, 0)` to `[T, H, W, C]`, then clamp to `[0, 1]`. -/
def decode_latent (C T H W : Nat)
    (decoded : Fin 1 → Fin C → Fin T → Fin H → Fin W → ℚ) :
    Fin T → Fin H → Fin W → Fin C → ℚ :=
  let images := fun (i : Fin 1) (c : Fin C) (t : Fin T) (h : Fin H) (w : Fin W) =>
    (decoded i c t h w + 1) / 2
  let permuted := fun (t : Fin T) (h : Fin H) (w : Fin W) (c : Fin C) =>
    images 0 c t h w
  fun t h w c => pyClamp (permuted t h w c) 0 1

/-- The two scheduler classes `sample` can construct. -/
inductive SchedKind
  | wan
  | teaCaching
deriving DecidableEq

/-- The `init_scheduler` block of `sample` (lines 862-869). -/
def init_scheduler (feature_caching : String) : Except Err SchedKind :=
  if feature_caching == "NoCaching" then .ok .wan
  else if feature_caching == "Tea" then .ok .teaCaching
  else .error .notImplementedError

/-- An abstract scheduler object: state-transforming methods plus the
attributes `sample` reads.  `σ` is the joint mutable state of the
scheduler and the model, `α` the latents type, `γ` the generator type. -/
structure SchedOps (σ α γ : Type) where
  prepare : σ → σ
  infer_steps : σ → Nat
  step_pre : Nat → σ → σ
  step_post : σ → σ
  clear : σ → σ
  latents : σ → α
  generator : σ → γ

/-- The observable calls `sample` makes on the scheduler and model. -/
inductive SampleEvent
  | prepare
  | step_pre (i : Nat)
  | infer
  | step_post
  | clear
deriving DecidableEq

/-- The latent dictionary returned by `sample`. -/
structure SampleOut (α γ : Type) where
  samples : α
  generator : γ

/-- One iteration of the sampling loop: `scheduler.step_pre(step_index)`,
`wan_model.infer(inputs)`, `scheduler.step_post()`. -/
def run_step {σ α γ : Type} (ops : SchedOps σ α γ) (minfer : σ → σ)
    (i : Nat) (s : σ) : σ × List SampleEvent :=
  (ops.step_post (minfer (ops.step_pre i s)),
   [SampleEvent.step_pre i, SampleEvent.infer, SampleEvent.step_post])

/-- The sampling loop over the given step indices. -/
def run_loop {σ α γ : Type} (ops : SchedOps σ α γ) (minfer : σ → σ) :
    List Nat → σ → σ × List SampleEvent
  | [], s => (s, [])
  | i :: rest, s =>
    let p := run_step ops minfer i s
    let q := run_loop ops minfer rest p.1
    (q.1, p.2 ++ q.2)

/-- Lines 881-902 of `sample`: `scheduler.prepare(...)`, the loop over
`range(scheduler.infer_steps)`, `scheduler.clear()`, and the return of
`scheduler.latents` / `scheduler.generator`. -/
def sample_loop {σ α γ : Type} (ops : SchedOps σ α γ) (minfer : σ → σ)
    (s0 : σ) : σ × List SampleEvent × SampleOut α γ :=
  let s1 := ops.prepare s0
  let n := ops.infer_steps s1
  let r := run_loop ops minfer (List.range n) s1
  let s3 := ops.clear r.1
  (s3, SampleEvent.prepare :: r.2 ++ [SampleEvent.clear],
   ⟨ops.latents s3, ops.generator s3⟩)

/-- The event trace the spec expects from a loop of `n` steps. -/
def loop_spec_events (n : Nat) : List SampleEvent :=
  (List.range n).flatMap
    (fun i => [SampleEvent.step_pre i, SampleEvent.infer, SampleEvent.step_post])

/-- `Lightx2vWanVideoSampler.sample` from the i2v input check onward:
raise `ValueError` for an i2v task with missing encoder outputs, select
the scheduler by `feature_caching` (raising `NotImplementedError`
otherwise), then run the sampling loop.  An `Except.error` result means
the method raised before any loop event occurred. -/
def sample_run {σ α γ : Type} (task_is_i2v missing_encoder_out : Bool)
    (feature_caching : String) (wanOps teaOps : SchedOps σ α γ)
    (minfer : σ → σ) (s0 : σ) :
    Except Err (σ × List SampleEvent × SampleOut α γ) :=
  if task_is_i2v && missing_encoder_out then .error .valueError
  else match init_scheduler feature_caching with
    | .error e => .error e
    | .ok .wan => .ok (sample_loop wanOps minfer s0)
    | .ok .teaCaching => .ok (sample_loop teaOps minfer s0)

/-- A node class as the host registration convention sees it: its
`RETURN_TYPES`, `FUNCTION` and `CATEGORY` attributes, plus the method
names the class body defines. -/
structure NodeClass where
  className : String
  RETURN_TYPES : List String
  FUNCTION : String
  CATEGORY : String
  methods : List String
deriving DecidableEq

/-- `NODE_CLASS_MAPPINGS` (lines 906-918), with each class's registration
attributes and defined methods transcribed from its class body. -/
def NODE_CLASS_MAPPINGS : List (String × NodeClass) :=
  [("Lightx2vWanVideoModelDir",
    ⟨"Lightx2vWanVideoModelDir", ["STRING"], "process", "LightX2V",
     ["INPUT_TYPES", "process"]⟩),
   ("Lightx2vWanVideoT5EncoderLoader",
    ⟨"Lightx2vWanVideoT5EncoderLoader", ["LIGHT_T5_ENCODER"], "load_t5_encoder",
     "LightX2V", ["INPUT_TYPES", "load_t5_encoder"]⟩),
   ("Lightx2vWanVideoT5Encoder",
    ⟨"Lightx2vWanVideoT5Encoder", ["LIGHT_TEXT_EMBEDDINGS"], "encode_text",
     "LightX2V", ["INPUT_TYPES", "encode_text"]⟩),
   ("Lightx2vWanVideoClipVisionEncoderLoader",
    ⟨"Lightx2vWanVideoClipVisionEncoderLoader", ["LIGHT_CLIP_VISION_ENCODER"],
     "load_clip_vision_encoder", "LightX2V",
     ["INPUT_TYPES", "load_clip_vision_encoder"]⟩),
   ("Lightx2vWanVideoVaeLoader",
    ⟨"Lightx2vWanVideoVaeLoader", ["LIGHT_WAN_VAE"], "load_vae", "LightX2V",
     ["INPUT_TYPES", "load_vae"]⟩),
   ("Lightx2vTeaCache",
    ⟨"WanVideoTeaCache", ["LIGHT_TEACACHEARGS"], "process", "LightX2V",
     ["INPUT_TYPES", "process"]⟩),
   ("Lightx2vWanVideoEmptyEmbeds",
    ⟨"Lightx2vWanVideoEmptyEmbeds", ["LIGHT_IMAGE_EMBEDDINGS"], "process",
     "LightX2V", ["INPUT_TYPES", "process"]⟩),
   ("Lightx2vWanVideoImageEncoder",
    ⟨"Lightx2vWanVideoImageEncoder", ["LIGHT_IMAGE_EMBEDDINGS"], "encode_image",
     "LightX2V", ["INPUT_TYPES", "encode_image"]⟩),
   ("Lightx2vWanVideoVaeDecoder",
    ⟨"Lightx2vWanVideoVaeDecoder", ["IMAGE"], "decode_latent", "LightX2V",
     ["INPUT_TYPES", "decode_latent"]⟩),
   ("Lightx2vWanVideoModelLoader",
    ⟨"Lightx2vWanVideoModelLoader", ["LIGHT_WAN_MODEL"], "load_model",
     "LightX2V", ["INPUT_TYPES", "load_model"]⟩),
   ("Lightx2vWanVideoSampler",
    ⟨"Lightx2vWanVideoSampler", ["LIGHT_LATENT"], "sample", "LightX2V",
     ["INPUT_TYPES", "sample"]⟩)]

/-- The errors the adapter code actually raises (for the amended error
enumeration): `AssertionError`, `NotImplementedError`,
`FileNotFoundError`, `ValueError`, `AttributeError`. -/
def err_allowed : Err → Bool
  | .assertionError => true
  | .notImplementedError => true
  | .fileNotFoundError => true
  | .valueError => true
  | .attributeError => true
  | _ => false

/-- A fallible adapter result only ever fails with an allowed error. -/
def errs_ok {β : Type} (r : Except Err β) : Prop :=
  ∀ e, r = .error e → err_allowed e = true

/-- A successful result raises nothing. -/
theorem errs_ok_ok {β : Type} (b : β) : errs_ok (Except.ok b : Except Err β) :=
  fun _ he => Except.noConfusion he

/-- An allowed error satisfies the enumeration. -/
theorem errs_ok_error {β : Type} (e' : Err) (h : err_allowed e' = true) :
    errs_ok (Except.error e' : Except Err β) := by
  intro e he
  injection he with h2
  exact h2 ▸ h

/-- Error enumeration for `modelDir_process`. -/
theorem modelDir_process_errs (fs : String → Bool) (d : String) :
    errs_ok (modelDir_process fs d) := by
  unfold modelDir_process
  split
  · exact errs_ok_ok _
  · exact errs_ok_error _ rfl

/-- Error enumeration for the T5 loader's `else` branch. -/
theorem t5_else_branch_errs (fs : String → Bool) (mn : String) :
    errs_ok (t5_else_branch fs mn) := by
  unfold t5_else_branch
  split
  · split
    · exact errs_ok_ok _
    · exact errs_ok_error _ rfl
  · exact errs_ok_error _ rfl

/-- Error enumeration for `load_t5_encoder`. -/
theorem load_t5_encoder_errs (fs : String → Bool) (mn : String)
    (p : Precision) (dev : DeviceChoice) (md : Option String) :
    errs_ok (load_t5_encoder fs mn p dev md) := by
  unfold load_t5_encoder
  cases md with
  | some d =>
    by_cases h : d == ""
    · simp only [h, if_true]
      exact t5_else_branch_errs fs mn
    · simp only [h, if_false, Bool.false_eq_true]
      exact errs_ok_ok _
  | none => exact t5_else_branch_errs fs mn

/-- Error enumeration for `load_vae`. -/
theorem load_vae_errs (fs : String → Bool) (mn : String) (p : Precision)
    (dev : DeviceChoice) (par : Bool) (md : Option String) :
    errs_ok (load_vae fs mn p dev par md) := by
  unfold load_vae vae_check
  split
  · exact errs_ok_ok _
  · exact errs_ok_error Err.assertionError rfl

/-- Error enumeration for `load_clip_vision_encoder`. -/
theorem load_clip_errs (fs : String → Bool) (mn tp : String)
    (p : ClipPrecision) (dev : DeviceChoice) (md : Option String) :
    errs_ok (load_clip_vision_encoder fs mn tp p dev md) := by
  cases md with
  | some d =>
    simp only [load_clip_vision_encoder]
    split
    · exact errs_ok_error Err.attributeError rfl
    · split
      · split
        · exact errs_ok_ok _
        · exact errs_ok_error Err.assertionError rfl
      · exact errs_ok_error Err.assertionError rfl
  | none =>
    simp only [load_clip_vision_encoder]
    exact errs_ok_error Err.attributeError rfl

/-- Error enumeration for the path branch of `load_model`. -/
theorem load_model_path_branch_errs (fs isDir : String → Bool) (p : String)
    (mt : ModelType) (pr : Precision) (dev : DeviceChoice) (at2 : AttnType)
    (co : Bool) (mmt : String) (ta : Option TeacacheArgs)
    (lp : Option String) (ls : ℚ) :
    errs_ok (load_model_path_branch fs isDir p mt pr dev at2 co mmt ta lp ls) := by
  unfold load_model_path_branch
  split
  · exact errs_ok_error Err.assertionError rfl
  · split
    · split
      · exact errs_ok_ok _
      · exact errs_ok_error Err.fileNotFoundError rfl
    · exact errs_ok_error Err.assertionError rfl

/-- Error enumeration for `load_model`. -/
theorem load_model_errs (fs isDir : String → Bool) (mn : String)
    (mt : ModelType) (pr : Precision) (dev : DeviceChoice) (at2 : AttnType)
    (mmt : String) (lp : Option String) (ls : ℚ) (co : Bool)
    (ta : Option TeacacheArgs) (md : Option String) :
    errs_ok (load_model fs isDir mn mt pr dev at2 mmt lp ls co ta md) := by
  unfold load_model
  split
  · split
    · exact load_model_path_branch_errs fs isDir _ mt pr dev at2 co mmt ta lp ls
    · exact errs_ok_error Err.attributeError rfl
  · split
    · exact errs_ok_error Err.assertionError rfl
    · exact errs_ok_error Err.attributeError rfl

/-- `init_scheduler` only raises `NotImplementedError`. -/
theorem init_scheduler_error_shape (fc : String) (e : Err)
    (h : init_scheduler fc = .error e) : e = Err.notImplementedError := by
  unfold init_scheduler at h
  split at h
  · exact Except.noConfusion h
  · split at h
    · exact Except.noConfusion h
    · injection h with h2
      exact h2.symm

/-- Error enumeration for `sample_run`. -/
theorem sample_run_errs {σ α γ : Type} (i2v miss : Bool) (fc : String)
    (wanOps teaOps : SchedOps σ α γ) (minfer : σ → σ) (s0 : σ) :
    errs_ok (sample_run i2v miss fc wanOps teaOps minfer s0) := by
  unfold sample_run
  split
  · exact errs_ok_error _ rfl
  · split
    · next e heq =>
      rw [init_scheduler_error_shape fc e heq]
      exact errs_ok_error _ rfl
    · exact errs_ok_ok _
    · exact errs_ok_ok _

/-- Error enumeration for the config mutation in `sample`. -/
theorem sample_update_config_errs (cfg : SamplerConfig) (img : ImageConfig)
    (steps : Nat) (shift gs : ℚ) (seed : Int) :
    errs_ok (sample_update_config cfg img steps shift gs seed) := by
  unfold sample_update_config sample_set_target_shape
  split
  · split
    · exact errs_ok_ok _
    · exact errs_ok_error Err.attributeError rfl
  · exact errs_ok_ok _

/-- The event list emitted by `run_loop` is determined by the index list
alone: each index contributes `step_pre i`, `infer`, `step_post`. -/
theorem run_loop_events {σ α γ : Type} (ops : SchedOps σ α γ)
    (minfer : σ → σ) :
    ∀ (idxs : List Nat) (s : σ),
      (run_loop ops minfer idxs s).2
        = idxs.flatMap (fun i =>
            [SampleEvent.step_pre i, SampleEvent.infer, SampleEvent.step_post])
  | [], s => rfl
  | i :: rest, s => by
    simp [run_loop, run_step, run_loop_events ops minfer rest]

/-- Claim C5: `Lightx2vWanVideoModelDir.process` raises an
`AssertionError` exactly when the given path does not exist, and
otherwise returns the `model_dir` string unchanged. -/
theorem model_dir_process_spec (fs : String → Bool) (d : String) :
    (modelDir_process fs d = .error .assertionError ↔ fs d = false)
    ∧ (fs d = true → modelDir_process fs d = .ok d) := by
  unfold modelDir_process
  by_cases h : fs d <;> simp [h]

/-- Witness for claim C5 at an existing path. -/
theorem model_dir_process_spec_witness :
    modelDir_process (fun _ => true) "/models/wan" = .ok "/models/wan" :=
  (model_dir_process_spec (fun _ => true) "/models/wan").2 rfl

/-- Claim C9: `WanVideoTeaCache.INPUT_TYPES` declares `start_percent` and
`end_percent` as required inputs, but `process` has no parameters of
those names, so a keyword call using exactly the declared input names
fails to bind and raises `TypeError`. -/
theorem teacache_kwargs_mismatch :
    teaCache_required_inputs.contains "start_percent" = true
    ∧ teaCache_required_inputs.contains "end_percent" = true
    ∧ teaCache_process_params.any (fun p => p.name == "start_percent") = false
    ∧ teaCache_process_params.any (fun p => p.name == "end_percent") = false
    ∧ kwargsCall teaCache_process_params teaCache_required_inputs
        = .error .typeError
    ∧ kwargsCall teaCache_process_params
        (teaCache_required_inputs ++ teaCache_optional_inputs)
        = .error .typeError := by
  decide

/-- Claim C8: every entry of `NODE_CLASS_MAPPINGS` has a non-empty
`RETURN_TYPES`, a `FUNCTION` naming a method the class defines, and
`CATEGORY` equal to `"LightX2V"`. -/
theorem node_class_mappings_wellformed :
    ∀ entry ∈ NODE_CLASS_MAPPINGS,
      entry.2.RETURN_TYPES ≠ []
      ∧ entry.2.FUNCTION ∈ entry.2.methods
      ∧ entry.2.CATEGORY = "LightX2V" := by
  decide

/-- Witness for claim C8 at the sampler's registration entry. -/
theorem node_class_mappings_wellformed_witness :
    ("Lightx2vWanVideoSampler",
      (⟨"Lightx2vWanVideoSampler", ["LIGHT_LATENT"], "sample", "LightX2V",
        ["INPUT_TYPES", "sample"]⟩ : NodeClass)).2.CATEGORY = "LightX2V" :=
  (node_class_mappings_wellformed
    ("Lightx2vWanVideoSampler",
      ⟨"Lightx2vWanVideoSampler", ["LIGHT_LATENT"], "sample", "LightX2V",
        ["INPUT_TYPES", "sample"]⟩) (by decide)).2.2

/-- Claim C4: `decode_latent` returns exactly the clamp of the shifted
decoded tensor, permuted from `[1, C, T, H, W]` to `[T, H, W, C]`, and
every returned value lies in `[0, 1]`. -/
theorem decode_latent_clamped_unit_range (C T H W : Nat)
    (decoded : Fin 1 → Fin C → Fin T → Fin H → Fin W → ℚ)
    (t : Fin T) (h : Fin H) (w : Fin W) (c : Fin C) :
    decode_latent C T H W decoded t h w c
      = pyClamp ((decoded 0 c t h w + 1) / 2) 0 1
    ∧ 0 ≤ decode_latent C T H W decoded t h w c
    ∧ decode_latent C T H W decoded t h w c ≤ 1 := by
  have h1 : decode_latent C T H W decoded t h w c
      = pyClamp ((decoded 0 c t h w + 1) / 2) 0 1 := rfl
  refine ⟨h1, ?_, ?_⟩
  · rw [h1]
    simp only [pyClamp]
    exact le_min (le_max_right _ _) zero_le_one
  · rw [h1]
    simp only [pyClamp]
    exact min_le_right _ _

/-- Claim C10: `load_t5_encoder` with a truthy `model_dir` assembles the
checkpoint and tokenizer paths and returns them with no existence check
(the result does not depend on the filesystem); without a usable
`model_dir` it asserts existence of checkpoint and tokenizer paths. -/
theorem t5_loader_model_dir_skips_checks :
    (∀ (fs : String → Bool) (model_name : String) (precision : Precision)
        (device : DeviceChoice) (d : String), d ≠ "" →
        load_t5_encoder fs model_name precision device (some d)
          = .ok ⟨pathJoin d model_name, pathJoin (pathJoin d "google") "umt5-xxl"⟩)
    ∧ (∀ (fs : String → Bool) (model_name : String) (precision : Precision)
        (device : DeviceChoice),
        load_t5_encoder fs model_name precision device none
            = .error .assertionError
          ↔ (fs model_name = false
             ∨ fs (pathJoin (pathJoin (pyParent model_name) "google") "umt5-xxl")
                 = false)) := by
  constructor
  · intro fs model_name precision device d hd
    simp [load_t5_encoder, hd]
  · intro fs model_name precision device
    simp only [load_t5_encoder, t5_else_branch]
    by_cases h1 : fs model_name
      <;> by_cases h2 : fs (pathJoin (pathJoin (pyParent model_name) "google") "umt5-xxl")
      <;> simp [h1, h2]

/-- Witness for claim C10: the model-dir branch succeeds even on an
all-false filesystem. -/
theorem t5_loader_model_dir_skips_checks_witness :
    load_t5_encoder (fun _ => false) "models_t5.pth" Precision.bf16
        DeviceChoice.cuda (some "/dir")
      = .ok ⟨pathJoin "/dir" "models_t5.pth",
             pathJoin (pathJoin "/dir" "google") "umt5-xxl"⟩ :=
  t5_loader_model_dir_skips_checks.1 (fun _ => false) "models_t5.pth"
    Precision.bf16 DeviceChoice.cuda "/dir" (by decide)

/-- Claim C2: in `sample`, scheduler construction is decided exactly by
`feature_caching`: `WanScheduler` for `"NoCaching"`,
`WanSchedulerTeaCaching` for `"Tea"`, and `NotImplementedError` for any
other value, raised before any sampling step runs (an error result of
`sample_run` carries no loop events). -/
theorem scheduler_selection_by_feature_caching (fc : String) :
    (init_scheduler fc = .ok .wan ↔ fc = "NoCaching")
    ∧ (init_scheduler fc = .ok .teaCaching ↔ fc = "Tea")
    ∧ (fc ≠ "NoCaching" → fc ≠ "Tea" →
        init_scheduler fc = .error .notImplementedError
        ∧ ∀ (σ α γ : Type) (wanOps teaOps : SchedOps σ α γ) (minfer : σ → σ)
            (s0 : σ) (i2v missing : Bool), (i2v && missing) = false →
            sample_run i2v missing fc wanOps teaOps minfer s0
              = .error .notImplementedError) := by
  by_cases h1 : fc = "NoCaching"
  · subst h1
    refine ⟨by simp [init_scheduler], by simp [init_scheduler], ?_⟩
    intro h _
    exact absurd rfl h
  · by_cases h2 : fc = "Tea"
    · subst h2
      refine ⟨by simp [init_scheduler], by simp [init_scheduler], ?_⟩
      intro _ h
      exact absurd rfl h
    · have hinit : init_scheduler fc = .error .notImplementedError := by
        simp [init_scheduler, h1, h2]
      refine ⟨by simp [hinit, h1], by simp [hinit, h2], ?_⟩
      intro _ _
      refine ⟨hinit, ?_⟩
      intro σ α γ wanOps teaOps minfer s0 i2v missing hmiss
      simp [sample_run, hmiss, hinit]

/-- A trivial concrete scheduler used to witness the sampler claims. -/
def trivSchedOps : SchedOps Nat Nat Nat :=
  ⟨id, fun _ => 0, fun _ s => s, id, id, id, id⟩

/-- Witness for claim C2: an unrecognized caching mode. -/
theorem scheduler_selection_by_feature_caching_witness :
    init_scheduler "TaylorSeer" = .error .notImplementedError
    ∧ sample_run false false "TaylorSeer" trivSchedOps trivSchedOps id 0
        = .error .notImplementedError := by
  have h := (scheduler_selection_by_feature_caching "TaylorSeer").2.2
    (by decide) (by decide)
  exact ⟨h.1, h.2 Nat Nat Nat trivSchedOps trivSchedOps id 0 false false rfl⟩

/-- Claim C7: the sampling loop runs exactly `scheduler.infer_steps`
iterations, each emitting `step_pre i`, `infer`, `step_post` in order;
after the loop `clear` is called and the scheduler's latents and
generator are returned. -/
theorem sampler_loop_trace {σ α γ : Type} (ops : SchedOps σ α γ)
    (minfer : σ → σ) (s0 : σ) :
    (sample_loop ops minfer s0).2.1
      = SampleEvent.prepare ::
        (loop_spec_events (ops.infer_steps (ops.prepare s0))
          ++ [SampleEvent.clear])
    ∧ (sample_loop ops minfer s0).2.2.samples
        = ops.latents (sample_loop ops minfer s0).1
    ∧ (sample_loop ops minfer s0).2.2.generator
        = ops.generator (sample_loop ops minfer s0).1 := by
  refine ⟨?_, rfl, rfl⟩
  simp [sample_loop, loop_spec_events, run_loop_events]

/-- Claim C6: `load_model` maps the widget values into the config
dictionary: `use_bfloat16` holds exactly for precision `bf16` (under the
`dtype_map` sending bf16/fp16/fp32 to the corresponding torch dtypes);
`feature_caching` is `"Tea"` iff `teacache_args` is not `None`;
`teacache_thresh` is the given `rel_l1_thresh` or defaults to `0.26`;
and a `None`, empty, or whitespace-only `lora_path` is stored as `None`. -/
theorem load_model_config_mapping (model_type : ModelType)
    (precision : Precision) (device : DeviceChoice)
    (attention_type : AttnType) (cpu_offload : Bool) (mm_type : String)
    (teacache_args : Option TeacacheArgs) (lora_path : Option String)
    (lora_strength : ℚ) (model_path : String) :
    ((buildConfig model_type precision device attention_type cpu_offload
        mm_type teacache_args lora_path lora_strength model_path).use_bfloat16
          = true
      ↔ precision = Precision.bf16)
    ∧ dtype_map Precision.bf16 = Dtype.bfloat16
    ∧ dtype_map Precision.fp16 = Dtype.float16
    ∧ dtype_map Precision.fp32 = Dtype.float32
    ∧ (buildConfig model_type precision device attention_type cpu_offload
        mm_type teacache_args lora_path lora_strength model_path).feature_caching
        = (if teacache_args.isSome then "Tea" else "NoCaching")
    ∧ (∀ t, teacache_args = some t →
        (buildConfig model_type precision device attention_type cpu_offload
          mm_type teacache_args lora_path lora_strength model_path).teacache_thresh
          = t.rel_l1_thresh)
    ∧ (teacache_args = none →
        (buildConfig model_type precision device attention_type cpu_offload
          mm_type teacache_args lora_path lora_strength model_path).teacache_thresh
          = 26/100)
    ∧ (∀ s, lora_path = some s → pyStrip s = "" →
        (buildConfig model_type precision device attention_type cpu_offload
          mm_type teacache_args lora_path lora_strength model_path).lora_path
          = none)
    ∧ (lora_path = none →
        (buildConfig model_type precision device attention_type cpu_offload
          mm_type teacache_args lora_path lora_strength model_path).lora_path
          = none) := by
  refine ⟨?_, rfl, rfl, rfl, rfl, ?_, ?_, ?_, ?_⟩
  · cases precision <;> simp [buildConfig, dtype_map]
  · intro t ht
    subst ht
    rfl
  · intro ht
    subst ht
    rfl
  · intro s hs hside
    subst hs
    simp [buildConfig, hside]
  · intro h
    subst h
    rfl

/-- Witness for claim C6: a whitespace-only LoRA path is dropped and
supplied teacache args fix the threshold. -/
theorem load_model_config_mapping_witness :
    (buildConfig ModelType.i2v Precision.bf16 DeviceChoice.cuda
        AttnType.flash_attn3 false "Default"
        (some ⟨26/100, 1, 10, "offload_device", "i2v-14B-720p", "e"⟩)
        (some "   ") 1 "/m/model").teacache_thresh = 26/100
    ∧ (buildConfig ModelType.i2v Precision.bf16 DeviceChoice.cuda
        AttnType.flash_attn3 false "Default"
        (some ⟨26/100, 1, 10, "offload_device", "i2v-14B-720p", "e"⟩)
        (some "   ") 1 "/m/model").lora_path = none := by
  have h := load_model_config_mapping ModelType.i2v Precision.bf16
    DeviceChoice.cuda AttnType.flash_attn3 false "Default"
    (some ⟨26/100, 1, 10, "offload_device", "i2v-14B-720p", "e"⟩)
    (some "   ") 1 "/m/model"
  exact ⟨h.2.2.2.2.2.1 ⟨26/100, 1, 10, "offload_device", "i2v-14B-720p", "e"⟩ rfl,
         h.2.2.2.2.2.2.2.1 "   " rfl (by decide)⟩

/-- A sampler config as it sits in the model dictionary before a call to
`sample`: the sampling keys are absent. -/
def sampleCfgBefore : SamplerConfig :=
  { task := ModelType.t2v
    feature_caching := "NoCaching"
    cpu_offload := false
    target_height := 480
    target_width := 832
    target_video_length := 81
    vae_stride := (4, 8, 8)
    patch_size := (1, 2, 2)
    lat_h := none
    lat_w := none
    num_channels_latents := none
    infer_steps := none
    sample_shift := none
    sample_guide_scale := none
    seed := none
    enable_cfg := none
    offload_granularity := none
    target_shape := none }

/-- The image config from `Lightx2vWanVideoEmptyEmbeds.process` with the
default widget values. -/
def sampleImgCfg : ImageConfig :=
  { target_height := 480
    target_width := 832
    target_video_length := 81
    vae_stride := (4, 8, 8)
    patch_size := (1, 2, 2)
    cpu_offload := none
    lat_h := none
    lat_w := none }

/-- The same config after `sample` with `steps = 20`, `shift = 5`,
`cfg_scale = 5`, `seed = 42` ran its mutation. -/
def sampleCfgAfter : SamplerConfig :=
  { sampleCfgBefore with
    infer_steps := some 20
    sample_shift := some 5
    sample_guide_scale := some 5
    seed := some 42
    enable_cfg := some true
    offload_granularity := some "block"
    target_shape := some (16, 21, 60, 104) }

/-- With the default guidance scale 5, `math.isclose(cfg_scale, 1.0)` is
false. -/
theorem pyIsClose_5_1 : pyIsClose 5 1 = false := by
  simp only [pyIsClose, ratAbs, ratMax, decide_eq_false_iff_not]
  norm_num

/-- Counterexample to claim C3: `sample` does not leave the model's
`config` entry unchanged; at a concrete t2v config it writes the
sampling keys in place. -/
theorem sample_mutates_model_config :
    sample_update_config sampleCfgBefore sampleImgCfg 20 5 5 42
      = .ok sampleCfgAfter
    ∧ sampleCfgAfter ≠ sampleCfgBefore := by
  constructor
  · simp [sample_update_config, sample_set_params, dict_update,
      sample_set_target_shape, sampleCfgBefore, sampleImgCfg, sampleCfgAfter,
      pyIsClose_5_1]
  · decide

/-- Claim C3 (amended): a call to `sample` mutates the model's `config`
dictionary in place: afterwards `infer_steps`, `sample_shift`,
`sample_guide_scale` and `seed` hold the call's arguments,
`offload_granularity` is `"block"`, and the image config's keys
overwrite the model config's entries. -/
theorem sample_config_after_call (cfg : SamplerConfig) (img : ImageConfig)
    (steps : Nat) (shift cfg_scale : ℚ) (seed : Int) :
    (sample_set_params cfg img steps shift cfg_scale seed).infer_steps
        = some steps
    ∧ (sample_set_params cfg img steps shift cfg_scale seed).sample_shift
        = some shift
    ∧ (sample_set_params cfg img steps shift cfg_scale seed).sample_guide_scale
        = some cfg_scale
    ∧ (sample_set_params cfg img steps shift cfg_scale seed).seed = some seed
    ∧ (sample_set_params cfg img steps shift cfg_scale seed).offload_granularity
        = some "block"
    ∧ (sample_set_params cfg img steps shift cfg_scale seed).target_height
        = img.target_height
    ∧ (sample_set_params cfg img steps shift cfg_scale seed).target_width
        = img.target_width
    ∧ (sample_set_params cfg img steps shift cfg_scale seed).target_video_length
        = img.target_video_length :=
  ⟨rfl, rfl, rfl, rfl, rfl, rfl, rfl, rfl⟩

/-- Counterexample to claim C1: `load_model` raises `FileNotFoundError`
(neither an `AssertionError` nor the `NotImplementedError`) when the
model checkpoint exists but `config.json` is missing beside it. -/
theorem load_model_raises_file_not_found :
    load_model (fun p => p == "/models/wan/model.safetensors")
        (fun _ => false) "model.safetensors" ModelType.i2v Precision.bf16
        DeviceChoice.cuda AttnType.flash_attn3 "Default" none 1 false none
        (some "/models/wan")
      = .error .fileNotFoundError
    ∧ Err.fileNotFoundError ≠ Err.assertionError
    ∧ Err.fileNotFoundError ≠ Err.notImplementedError := by
  refine ⟨?_, by decide, by decide⟩
  decide

/-- Claim C1 (amended): every error a node operation raises is one of
`AssertionError` (existence / non-emptiness assertions),
`NotImplementedError` (unrecognized `feature_caching`),
`FileNotFoundError` (missing `config.json` in `load_model`),
`ValueError` (i2v sampling without encoder outputs), or
`AttributeError` (`.exists()` on a plain `str` when `model_dir` is
falsy in `load_model`/`load_clip_vision_encoder`; missing `lat_h` /
`lat_w` keys in i2v sampling). -/
theorem node_errors_enumerated :
    (∀ (fs : String → Bool) (d : String), errs_ok (modelDir_process fs d))
    ∧ (∀ (fs : String → Bool) (mn : String) (p : Precision)
        (dev : DeviceChoice) (md : Option String),
        errs_ok (load_t5_encoder fs mn p dev md))
    ∧ (∀ (fs : String → Bool) (mn : String) (p : Precision)
        (dev : DeviceChoice) (par : Bool) (md : Option String),
        errs_ok (load_vae fs mn p dev par md))
    ∧ (∀ (fs : String → Bool) (mn tp : String) (p : ClipPrecision)
        (dev : DeviceChoice) (md : Option String),
        errs_ok (load_clip_vision_encoder fs mn tp p dev md))
    ∧ (∀ (fs isDir : String → Bool) (mn : String) (mt : ModelType)
        (pr : Precision) (dev : DeviceChoice) (at2 : AttnType) (mmt : String)
        (lp : Option String) (ls : ℚ) (co : Bool) (ta : Option TeacacheArgs)
        (md : Option String),
        errs_ok (load_model fs isDir mn mt pr dev at2 mmt lp ls co ta md))
    ∧ (∀ (σ α γ : Type) (i2v miss : Bool) (fc : String)
        (wanOps teaOps : SchedOps σ α γ) (minfer : σ → σ) (s0 : σ),
        errs_ok (sample_run i2v miss fc wanOps teaOps minfer s0))
    ∧ (∀ (cfg : SamplerConfig) (img : ImageConfig) (steps : Nat)
        (shift gs : ℚ) (seed : Int),
        errs_ok (sample_update_config cfg img steps shift gs seed)) :=
  ⟨modelDir_process_errs,
   load_t5_encoder_errs,
   load_vae_errs,
   load_clip_errs,
   load_model_errs,
   fun σ α γ => sample_run_errs,
   sample_update_config_errs⟩

/-- Witness for claim C1 (amended): a failing existence check on the
model directory raises an allowed error. -/
theorem node_errors_enumerated_witness :
    err_allowed Err.assertionError = true :=
  node_errors_enumerated.1 (fun _ => false) "/missing" Err.assertionError rfl
